import Mathlib

/-!
# Verification of the py_weather GUI layer and its data-access contract

A shallow embedding of the `py_gui` package of the repository:

* `py_gui/domain/weather_data.py` — the `WeatherData` pass-through wrapper
  over the Rust bindings;
* `py_gui/domain/__init__.py` — `WeatherConfigException`;
* `py_gui/tk_weather/add_location.py` — the `AddLocation` / `LocationEditor`
  dialog (field validation, apply/cancel flow);
* `py_gui/tk_weather/city_search.py` — the `GetSearchCriteria` dialog
  (limit key-validator, apply).

The weather-data engine behind the bindings is not part of the visible
source; where a claim depends on it, the engine operation is modelled from
the specification (each such definition is marked `Modelled from the
spec:`).  Python built-ins used by the code (`float`, `int`, `str.strip`,
`str.lower`) are modelled for the ASCII inputs the dialogs handle.
-/

/-! ## Models of the Python string primitives used by the GUI code -/

/-- Numeric value of a decimal digit character (`'0'` has code point 48). -/
def digitVal (c : Char) : Nat := c.toNat - 48

/-- Value of a list of decimal digit characters, most significant first. -/
def natFromDigits (cs : List Char) : Nat :=
  cs.foldl (fun a c => 10 * a + digitVal c) 0

/-- `true` iff `c` is not an uppercase ASCII letter (`'A'`–`'Z'`,
code points 65–90). -/
def noUpperChar (c : Char) : Bool := !decide (65 ≤ c.toNat ∧ c.toNat ≤ 90)

/-- A string with no uppercase ASCII letter. -/
def noUpper (s : String) : Bool := s.data.all noUpperChar

/-- Model of Python `str.lower` on a single character, for the ASCII
letters the dialogs handle: uppercase ASCII letters are shifted down by 32,
all other characters are unchanged. -/
def pyLowerChar (c : Char) : Char :=
  if noUpperChar c then c else Char.ofNat (c.toNat + 32)

/-- Model of Python `str.lower` (ASCII range). -/
def pyLower (s : String) : String := ⟨s.data.map pyLowerChar⟩

/-- Case-insensitive string comparison, as performed by lowercasing both
sides. -/
def ciEq (a b : String) : Bool := pyLower a == pyLower b

theorem noUpperChar_pyLowerChar (c : Char) : noUpperChar (pyLowerChar c) = true := by
  by_cases h : noUpperChar c = true
  · rw [pyLowerChar, if_pos h]; exact h
  · rw [pyLowerChar, if_neg h]
    have hb : 65 ≤ c.toNat ∧ c.toNat ≤ 90 := by
      simpa [noUpperChar] using h
    have hv : Nat.isValidChar (c.toNat + 32) := Or.inl (by omega)
    have ht : (Char.ofNat (c.toNat + 32)).toNat = c.toNat + 32 := by
      rw [Char.ofNat, dif_pos hv]; rfl
    simp only [noUpperChar, ht, Bool.not_eq_true', decide_eq_false_iff_not]
    omega

theorem pyLowerChar_idem (c : Char) : pyLowerChar (pyLowerChar c) = pyLowerChar c := by
  rw [pyLowerChar, if_pos (noUpperChar_pyLowerChar c)]

theorem noUpper_pyLower (s : String) : noUpper (pyLower s) = true := by
  simp only [noUpper, pyLower, List.all_eq_true, List.mem_map]
  rintro c ⟨a, _, rfl⟩
  exact noUpperChar_pyLowerChar a

theorem pyLower_idem (s : String) : pyLower (pyLower s) = pyLower s := by
  simp only [pyLower, List.map_map]
  apply congrArg String.mk
  simp only [Function.comp_def, pyLowerChar_idem]

theorem ciEq_pyLower_right (a b : String) : ciEq a (pyLower b) = ciEq a b := by
  rw [ciEq, ciEq, pyLower_idem]

theorem ciEq_refl (a : String) : ciEq a a = true := by
  simp [ciEq]

/-- Model of Python `int` on the strings the limit entry can hold: an
optional sign followed by ASCII decimal digits.  (Whitespace, underscores
and non-ASCII digits accepted by the real `int` are not modelled.)
`none` models the `ValueError` raised on any other string. -/
def pyIntDigits (cs : List Char) : Option Int :=
  if cs ≠ [] ∧ cs.all Char.isDigit then some (natFromDigits cs : Int) else none

/-- Model of Python `int` on a string (see `pyIntDigits`). -/
def pyInt (s : String) : Option Int :=
  match s.data with
  | [] => none
  | c :: r =>
    if c = '-' then (pyIntDigits r).map (fun v => -v)
    else if c = '+' then pyIntDigits r
    else pyIntDigits (c :: r)

theorem pyInt_all_digits_nonneg (s : String)
    (hd : s.data.all Char.isDigit = true) :
    ∀ n : Int, pyInt s = some n → 0 ≤ n := by
  intro n h
  rw [pyInt] at h
  rcases he : s.data with _ | ⟨c, r⟩
  · rw [he] at h; exact absurd h (by simp)
  · rw [he] at h hd
    have hc : c.isDigit = true :=
      (List.all_eq_true.mp hd) c (List.mem_cons_self c r)
    have hcm : ¬c = '-' := by rintro rfl; simp [Char.isDigit] at hc
    have hcp : ¬c = '+' := by rintro rfl; simp [Char.isDigit] at hc
    have h' : pyIntDigits (c :: r) = some n := by simpa [hcm, hcp] using h
    rw [pyIntDigits] at h'
    split at h'
    · injection h' with h''
      rw [← h'']
      exact Int.natCast_nonneg _
    · exact absurd h' (by simp)

/-- `true` iff `c` is one of the ASCII whitespace characters stripped by
Python `str.strip`. -/
def pyIsSpace (c : Char) : Bool :=
  c = ' ' || c = '\t' || c = '\n' || c = '\r' || c = '\x0b' || c = '\x0c'

/-- Model of Python `str.strip` (ASCII whitespace): drop whitespace from
both ends. -/
def pyStrip (s : String) : String :=
  ⟨((s.data.dropWhile pyIsSpace).reverse.dropWhile pyIsSpace).reverse⟩

/-- An exact decimal value `num / 10 ^ exp10`.  The comparisons the
dialogs perform on parsed floats are modelled on this exact value, which
agrees with IEEE double semantics on the magnitude tests against the
literal bounds ±90/±180 for the decimal literals in range of the model. -/
structure PyDecimal where
  num : Int
  exp10 : Nat
deriving DecidableEq

/-- Value order on `PyDecimal` (strict), by cross-multiplication. -/
def PyDecimal.blt (a b : PyDecimal) : Bool :=
  a.num * 10 ^ b.exp10 < b.num * 10 ^ a.exp10

/-- Value order on `PyDecimal` (non-strict), by cross-multiplication. -/
def PyDecimal.ble (a b : PyDecimal) : Bool :=
  a.num * 10 ^ b.exp10 ≤ b.num * 10 ^ a.exp10

/-- Model of Python `float` on the finite decimal literals the coordinate
entries can hold: optional sign, integer digits, optional fractional part,
optional decimal exponent.  (`inf`, `nan`, whitespace, underscores and hex
floats are not modelled.)  `none` models the `ValueError` raised on any
other string.  `pyFloatExp` applies a trailing exponent part. -/
def pyFloatExp (m : PyDecimal) (cs : List Char) : Option PyDecimal :=
  let sgnSplit : Bool × List Char :=
    match cs with
    | '-' :: r => (true, r)
    | '+' :: r => (false, r)
    | _ => (false, cs)
  if sgnSplit.2 ≠ [] ∧ sgnSplit.2.all Char.isDigit then
    some (if sgnSplit.1 then ⟨m.num, m.exp10 + natFromDigits sgnSplit.2⟩
          else ⟨m.num * 10 ^ natFromDigits sgnSplit.2, m.exp10⟩)
  else none

/-- Mantissa-and-beyond part of `pyFloat` (after the optional sign):
digits, optional `.digits`, optional exponent. -/
def pyFloatMantissa (cs : List Char) : Option PyDecimal :=
  let ip := cs.takeWhile Char.isDigit
  let rest := cs.dropWhile Char.isDigit
  match rest with
  | [] => if ip = [] then none else some ⟨(natFromDigits ip : Int), 0⟩
  | '.' :: r =>
    let fp := r.takeWhile Char.isDigit
    let rest2 := r.dropWhile Char.isDigit
    if ip = [] ∧ fp = [] then none
    else
      let mant : PyDecimal :=
        ⟨(natFromDigits ip : Int) * 10 ^ fp.length + (natFromDigits fp : Int),
         fp.length⟩
      match rest2 with
      | [] => some mant
      | 'e' :: r2 => pyFloatExp mant r2
      | 'E' :: r2 => pyFloatExp mant r2
      | _ => none
  | 'e' :: r2 =>
    if ip = [] then none else pyFloatExp ⟨(natFromDigits ip : Int), 0⟩ r2
  | 'E' :: r2 =>
    if ip = [] then none else pyFloatExp ⟨(natFromDigits ip : Int), 0⟩ r2
  | _ => none

/-- Model of Python `float` on a string (see `pyFloatMantissa`). -/
def pyFloat (s : String) : Option PyDecimal :=
  let sgnSplit : Bool × List Char :=
    match s.data with
    | '-' :: r => (true, r)
    | '+' :: r => (false, r)
    | _ => (false, s.data)
  (pyFloatMantissa sgnSplit.2).map (fun q => if sgnSplit.1 then ⟨-q.num, q.exp10⟩ else q)

/-! ## Domain data model

The `Location` the GUI edits carries its coordinates as strings: the editor
initialises its `StringVar`s from `location.latitude` / `location.longitude`
and `apply` writes the entry texts straight back
(`add_location.py`, `LocationEditor.__init__` / `apply`). -/

/-- `py_weather_lib.Location` as the GUI handles it: five text fields. -/
structure Location where
  name : String
  «alias» : String
  latitude : String
  longitude : String
  tz : String
deriving DecidableEq

/-- `py_weather_lib.DataCriteria`; the GUI only ever sets `filters`
(`DataCriteria(filters=[alias])` in `LocationEditor.validate`). -/
structure DataCriteria where
  filters : List String := []
deriving DecidableEq

/-- `py_weather_lib.DateRange` for `get_daily_history`. -/
structure DateRange where
  startDate : Nat
  endDate : Nat
deriving DecidableEq

/-- `py_weather_lib.LocationCriteria`: optional city/state/name text
filters and a result-count limit (`city_search.py`). -/
structure LocationCriteria where
  city : Option String := none
  state : Option String := none
  name : Option String := none
  limit : Int := 0
deriving DecidableEq

/-- One daily history record: identity is (location alias, date); the
measurements are an opaque value object, stood in for by a string. -/
structure DailyHistory where
  «alias» : String
  date : Nat
  measurements : String
deriving DecidableEq

/-- Opaque handle returned by `get_history_client`. -/
structure HistoryClient where
  handle : Nat
deriving DecidableEq

/-- `py_weather_lib.LocationHistoryDates`: per-location sorted date list. -/
structure LocationHistoryDates where
  «alias» : String
  dates : List Nat
deriving DecidableEq

/-- `py_weather_lib.HistorySummaries`: per-location aggregate statistics
(opaque to the GUI). -/
structure HistorySummaries where
  «alias» : String
  count : Nat
deriving DecidableEq

/-- Error taxonomy of the data-access contract (spec §7).  A raised Python
exception surfaces to the GUI as `SystemError`; the kind distinguishes the
contract failures. -/
inductive WeatherErr where
  | duplicateAlias
  | invalidField
  | unknownLocation
  | invalidLimit
  | invalidRange
  | storageFailure
deriving DecidableEq

deriving instance DecidableEq for Except

/-! ## The `WeatherData` pass-through wrapper (`domain/weather_data.py`)

The Rust bindings object is modelled as a record of functions, one per
remote call; each may fail (a raised `SystemError` is an `Except.error`).
The wrapper holds such a record in `_rust_bindings` and delegates. -/

/-- The `py_weather_lib.WeatherData` bindings surface. -/
structure RustBindings where
  add_histories : List DailyHistory → Except WeatherErr Int
  get_history_client : Unit → Except WeatherErr HistoryClient
  get_daily_history : DataCriteria → DateRange → Except WeatherErr (List DailyHistory)
  get_history_dates : DataCriteria → Except WeatherErr (List LocationHistoryDates)
  get_history_summary : DataCriteria → Except WeatherErr (List HistorySummaries)
  get_locations : DataCriteria → Except WeatherErr (List Location)
  search_locations : LocationCriteria → Except WeatherErr (List Location)
  add_location : Location → Except WeatherErr Unit

/-- `WeatherData.__init__`: stores the bindings object. -/
structure WeatherData where
  _rust_bindings : RustBindings

def WeatherData.add_histories (w : WeatherData) (daily_histories : List DailyHistory) :
    Except WeatherErr Int :=
  w._rust_bindings.add_histories daily_histories

def WeatherData.get_history_client (w : WeatherData) (u : Unit) :
    Except WeatherErr HistoryClient :=
  w._rust_bindings.get_history_client u

def WeatherData.get_daily_history (w : WeatherData) (criteria : DataCriteria)
    (history_range : DateRange) : Except WeatherErr (List DailyHistory) :=
  w._rust_bindings.get_daily_history criteria history_range

def WeatherData.get_history_dates (w : WeatherData) (criteria : DataCriteria) :
    Except WeatherErr (List LocationHistoryDates) :=
  w._rust_bindings.get_history_dates criteria

def WeatherData.get_history_summary (w : WeatherData) (criteria : DataCriteria) :
    Except WeatherErr (List HistorySummaries) :=
  w._rust_bindings.get_history_summary criteria

def WeatherData.get_locations (w : WeatherData) (criteria : DataCriteria) :
    Except WeatherErr (List Location) :=
  w._rust_bindings.get_locations criteria

def WeatherData.search_locations (w : WeatherData) (criteria : LocationCriteria) :
    Except WeatherErr (List Location) :=
  w._rust_bindings.search_locations criteria

/-- `WeatherData.add_location` has no `return`: the binding's result value
is discarded and `None` is returned (the binding returns `None` anyway, so
only a raised exception is observable). -/
def WeatherData.add_location (w : WeatherData) (location : Location) :
    Except WeatherErr Unit :=
  match w._rust_bindings.add_location location with
  | .ok _ => .ok ()
  | .error e => .error e

/-! ## `WeatherConfigException` (`domain/__init__.py`) -/

/-- `WeatherConfigException`: `__init__` calls `add_note(message)`, so the
notes list holds the message. -/
structure WeatherConfigException where
  notes : List String

/-- `WeatherConfigException(message)`. -/
def WeatherConfigException.init (message : String) : WeatherConfigException :=
  { notes := [message] }

/-- `WeatherConfigException.reason`: the body evaluates
`'\n'.join(self.__notes__)` but has no `return` statement, so the joined
string is discarded and the call returns `None`. -/
def WeatherConfigException.reason (e : WeatherConfigException) : Option String :=
  let _joined := String.intercalate "\n" e.notes
  none

/-! ## The engine behind the bindings, modelled from the spec

The Rust weather-data engine is part of the repository but not under the
visible source; the operations the claims depend on are modelled from the
specification (§4.1 Location Registry, §4.2 History Store). -/

/-- Modelled from the spec: `get_locations(criteria)` of the Location
Registry (the engine implementation is not in the visible source).  With no
filters every location is returned in insertion order; with filters, the
locations whose alias matches one of them (alias compare is
case-insensitive, exact). -/
def registryGetLocations (reg : List Location) (criteria : DataCriteria) :
    List Location :=
  if criteria.filters.isEmpty then reg
  else reg.filter (fun r => criteria.filters.any (fun fl => ciEq r.«alias» fl))

/-- Modelled from the spec: the §3 field contract of a `Location` —
latitude parses and lies in [-90, 90], longitude parses and lies in
[-180, 180], timezone resolves, alias non-empty. -/
def validLocationFields (tzdb : String → Option String) (l : Location) : Bool :=
  (match pyFloat l.latitude with
   | some q => PyDecimal.ble ⟨-90, 0⟩ q && PyDecimal.ble q ⟨90, 0⟩
   | none => false) &&
  (match pyFloat l.longitude with
   | some q => PyDecimal.ble ⟨-180, 0⟩ q && PyDecimal.ble q ⟨180, 0⟩
   | none => false) &&
  (tzdb l.tz).isSome && !(l.«alias» == "")

/-- Modelled from the spec: `add_location(location)` of the Location
Registry (the engine implementation is not in the visible source).  Fails
with `DuplicateAlias` if the alias is already present (case-insensitive
compare), with `InvalidField` if the field contract is violated; otherwise
appends the record. -/
def registryAddLocation (tzdb : String → Option String) (reg : List Location)
    (l : Location) : Except WeatherErr (List Location) :=
  if reg.any (fun r => ciEq r.«alias» l.«alias») then .error .duplicateAlias
  else if validLocationFields tzdb l then .ok (reg ++ [l])
  else .error .invalidField

/-- `true` iff some registered location has this alias (case-insensitive). -/
def locationKnown (reg : List Location) (a : String) : Bool :=
  reg.any (fun r => ciEq r.«alias» a)

/-- Upsert keyed by (alias, date): any existing record with the same key is
replaced, never duplicated. -/
def upsertHistory (store : List DailyHistory) (h : DailyHistory) :
    List DailyHistory :=
  store.filter (fun x => !(x.«alias» == h.«alias» && x.date == h.date)) ++ [h]

/-- Modelled from the spec: `add_histories(daily_histories)` of the History
Store (the engine implementation is not in the visible source).  If any
record references a location absent from the registry the whole batch is
rejected with `UnknownLocation` and the store is unchanged; otherwise every
record is upserted and the count of records written is returned. -/
def storeAddHistories (reg : List Location) (store : List DailyHistory)
    (batch : List DailyHistory) : List DailyHistory × Except WeatherErr Int :=
  if batch.all (fun h => locationKnown reg h.«alias») then
    (batch.foldl upsertHistory store, .ok (batch.length : Int))
  else
    (store, .error .unknownLocation)

/-! ## The `LocationEditor` dialog (`tk_weather/add_location.py`)

`LocationEditor` is a `tkinter.simpledialog.Dialog`.  Its five entry
widgets are backed by `StringVar`s initialised from the `Location` being
edited.  The Tk `Dialog` protocol drives it: pressing OK calls
`validate()`; only if that returns a truthy value does the dialog withdraw
and call `apply()`; otherwise it stays open.  Pressing Cancel (or Escape)
closes the dialog without calling `apply()`.  The editor state is modelled
as the field texts, the shared `Location` object, the `_is_cancelled`
flag, and an explicit phase for the dialog flow. -/

/-- The collaborators `LocationEditor.validate` consults:
`lookup a` models `weather_data.get_locations(DataCriteria(filters=[a]))`
(`none` models a raised `SystemError`, which `validate` catches), and
`tzdb t` models `pytz.timezone(t)` (`none` models `UnknownTimeZoneError`,
`some zone` the resolved canonical zone name `tzinfo.zone`). -/
structure ValidateEnv where
  lookup : String → Option (List Location)
  tzdb : String → Option String

/-- How a call of `LocationEditor.validate` ends: `vtrue zone` models
`return True` (after `self._tz_var.set(tzinfo.zone)`), `vfalse` models the
implicit `return None` taken on every warning path, and `vexn` models the
uncaught `ValueError` that `float(...)` raises on a non-empty text that
does not parse. -/
inductive ValidateOutcome where
  | vtrue (zone : String)
  | vfalse
  | vexn
deriving DecidableEq

/-- `LocationEditor.validate`, line for line: empty name, empty alias, an
alias already in use (or a `SystemError` while checking), an empty or
out-of-bounds latitude or longitude, and an empty or unknown timezone are
rejected; a non-empty unparsable coordinate raises; on success the
timezone text is canonicalised and `True` is returned. -/
def validateFn (env : ValidateEnv) (f : Location) : ValidateOutcome :=
  if f.name = "" then .vfalse
  else if f.«alias» = "" then .vfalse
  else
    (env.lookup f.«alias»).elim .vfalse (fun locs =>
      if locs.isEmpty then
        if f.latitude = "" then .vfalse
        else
          (pyFloat f.latitude).elim .vexn (fun lat =>
            if lat.blt ⟨-90, 0⟩ || PyDecimal.blt ⟨90, 0⟩ lat then .vfalse
            else if f.longitude = "" then .vfalse
            else
              (pyFloat f.longitude).elim .vexn (fun lon =>
                if lon.blt ⟨-180, 0⟩ || PyDecimal.blt ⟨180, 0⟩ lon then .vfalse
                else if f.tz = "" then .vfalse
                else (env.tzdb f.tz).elim .vfalse (fun zone => .vtrue zone)))
      else .vfalse)

/-- The dialog flow of the editor: `editing` while the form is open,
`validating` between the OK press and the validation outcome, and the two
terminal states. -/
inductive Phase where
  | editing
  | validating
  | applied
  | cancelled
deriving DecidableEq

/-- State of a `LocationEditor` run: the entry texts (`fields`), the
`Location` object passed in (`loc`, which only `apply` mutates), the
`_is_cancelled` flag (initially `True`), and the dialog phase. -/
structure DState where
  fields : Location
  loc : Location
  isCancelled : Bool
  phase : Phase
deriving DecidableEq

/-- `LocationEditor.__init__`: the `StringVar`s take the location's field
values, `_is_cancelled` starts `True`, the dialog opens editing. -/
def initDState (l : Location) : DState :=
  { fields := l, loc := l, isCancelled := true, phase := .editing }

/-- Events of an editor run.  `setName` … `setTz` model the user changing
an entry's text (the latitude/longitude key validators restrict single
keystrokes but the initial text and deletions are unrestricted, so texts
are modelled as arbitrary); `typeAlias` models typing in the alias entry,
i.e. a text change immediately followed by the `<KeyRelease>` handler
`lc_alias`, which lowercases the text; `aliasKeyRelease` models the
handler alone; `pressOk` / `resolve` model the OK press and the completion
of `validate`; `pressCancel` models Cancel/Escape. -/
inductive DialogEvent where
  | setName (s : String)
  | setAlias (s : String)
  | typeAlias (s : String)
  | setLatitude (s : String)
  | setLongitude (s : String)
  | setTz (s : String)
  | aliasKeyRelease
  | pressOk
  | resolve
  | pressCancel
deriving DecidableEq

/-- `LocationEditor.apply`: copy the entry texts into the shared
`Location` and clear `_is_cancelled`. -/
def applyEditor (d : DState) : DState :=
  { d with loc := d.fields, isCancelled := false }

/-- Effect of a `validate` outcome in the Tk `Dialog.ok` flow: on `True`
the timezone text is first canonicalised (validate's
`self._tz_var.set(tzinfo.zone)`), then `apply` runs and the dialog closes;
on a falsy return — and equally on the uncaught `ValueError`, which Tk
reports without closing the dialog — `apply` does not run and the dialog
stays open. -/
def applyOutcome (d : DState) : ValidateOutcome → DState
  | .vtrue zone =>
    { applyEditor { d with fields := { d.fields with tz := zone } } with
      phase := .applied }
  | .vfalse => { d with phase := .editing }
  | .vexn => { d with phase := .editing }

/-- Resolution of the pending validation. -/
def resolveStep (env : ValidateEnv) (d : DState) : DState :=
  applyOutcome d (validateFn env d.fields)

/-- One step of the editor dialog.  The dialog is modal: after it has
closed (applied or cancelled) nothing further happens, and while a
validation is pending only its resolution is observable. -/
def stepD (env : ValidateEnv) (d : DState) (e : DialogEvent) : DState :=
  match d.phase with
  | .applied => d
  | .cancelled => d
  | .validating =>
    match e with
    | .resolve => resolveStep env d
    | _ => d
  | .editing =>
    match e with
    | .setName s => { d with fields := { d.fields with name := s } }
    | .setAlias s => { d with fields := { d.fields with «alias» := s } }
    | .typeAlias s => { d with fields := { d.fields with «alias» := pyLower s } }
    | .setLatitude s => { d with fields := { d.fields with latitude := s } }
    | .setLongitude s => { d with fields := { d.fields with longitude := s } }
    | .setTz s => { d with fields := { d.fields with tz := s } }
    | .aliasKeyRelease =>
      { d with fields := { d.fields with «alias» := pyLower d.fields.«alias» } }
    | .pressOk => { d with phase := .validating }
    | .pressCancel => { d with phase := .cancelled }
    | .resolve => d

/-- A whole editor run: fold the events over the initial state. -/
def runDialog (env : ValidateEnv) (d : DState) (es : List DialogEvent) : DState :=
  es.foldl (stepD env) d

/-- The environment the editor actually runs against: alias lookup through
the registry (modelled from the spec, see `registryGetLocations`) and a
timezone database. -/
def envOfRegistry (tzdb : String → Option String) (reg : List Location) :
    ValidateEnv :=
  { lookup := fun a => some (registryGetLocations reg ⟨[a]⟩), tzdb := tzdb }

/-- `AddLocation.__init__`: run the editor; if it was not cancelled, call
`weather_data.add_location(location)` — on success `_is_cancelled` becomes
`False`, a raised `SystemError` (e.g. `DuplicateAlias`) is caught and
leaves it `True`.  Returns the registry afterwards and the final
`_is_cancelled` flag. -/
def addLocationRun (tzdb : String → Option String) (reg : List Location)
    (l : Location) (es : List DialogEvent) : List Location × Bool :=
  if (runDialog (envOfRegistry tzdb reg) (initDState l) es).isCancelled then
    (reg, true)
  else
    match registryAddLocation tzdb reg
        (runDialog (envOfRegistry tzdb reg) (initDState l) es).loc with
    | .ok reg2 => (reg2, false)
    | .error _ => (reg, true)

/-! ## The `GetSearchCriteria` dialog (`tk_weather/city_search.py`) -/

/-- `GetSearchCriteria.body.number_only`: the key validator of the limit
entry.  Action code `'1'` is an insert and is allowed only if every
inserted character is a digit; all other actions (deletes, revalidation)
are allowed. -/
def number_only (action : String) (text : String) : Bool :=
  if action = "1" then text.data.all Char.isDigit else true

/-- An edit of the limit entry text: an insertion of `s` at `pos`, or a
deletion of `len` characters at `pos`. -/
inductive LimitEdit where
  | insert (pos : Nat) (s : String)
  | delete (pos len : Nat)
deriving DecidableEq

/-- Insert `s` at position `pos` of `t`. -/
def insertAt (t : String) (pos : Nat) (s : String) : String :=
  ⟨t.data.take pos ++ s.data ++ t.data.drop pos⟩

/-- Delete `len` characters of `t` starting at `pos`. -/
def deleteRange (t : String) (pos len : Nat) : String :=
  ⟨t.data.take pos ++ t.data.drop (pos + len)⟩

/-- One keystroke edit of the limit entry, as Tk applies it under
`validate="key"`: the edit happens only if `number_only` accepts it. -/
def limitStep (t : String) (e : LimitEdit) : String :=
  match e with
  | .insert pos s => if number_only "1" s then insertAt t pos s else t
  | .delete pos len => deleteRange t pos len

/-- `value_or_none` in `GetSearchCriteria.apply`: an empty (falsy) string
becomes `None`. -/
def value_or_none (s : String) : Option String :=
  if s = "" then none else some s

/-- `GetSearchCriteria.apply`: the city/state/name texts are stripped and
stored (empty becoming `None`) one after the other, then
`int(self._limit.get())` is parsed and stored and `_is_canceled` is
cleared.  If the parse raises `ValueError` the first three fields have
already been mutated, `limit` keeps its old value and `_is_canceled`
stays `True`.  Returns the criteria and the `_is_canceled` flag. -/
def applyCriteria (cityT stateT nameT limitT : String) (c : LocationCriteria) :
    LocationCriteria × Bool :=
  let c1 := { c with city := value_or_none (pyStrip cityT),
                     state := value_or_none (pyStrip stateT),
                     name := value_or_none (pyStrip nameT) }
  match pyInt limitT with
  | none => (c1, true)
  | some n => ({ c1 with limit := n }, false)

/-! ## Generic invariant lemma for event folds -/

/-- An invariant `P` preserved by every step whose event satisfies `Q`
holds after folding any event list all of whose events satisfy `Q`. -/
theorem foldl_inv {α β : Type} (f : α → β → α) (P : α → Prop) (Q : β → Prop)
    (hstep : ∀ a b, Q b → P a → P (f a b)) :
    ∀ (l : List β) (a : α), (∀ b ∈ l, Q b) → P a → P (l.foldl f a) := by
  intro l
  induction l with
  | nil => intro a _ ha; simpa using ha
  | cons b t ih =>
    intro a hq ha
    rw [List.foldl_cons]
    exact ih _ (fun x hx => hq x (List.mem_cons_of_mem _ hx))
      (hstep a b (hq b (List.mem_cons_self _ _)) ha)

/-! ## Claim theorems -/

/-- **C4**: every method of the `WeatherData` wrapper returns exactly what
the same-named method of the underlying Rust bindings returns on the same
arguments — the wrapper adds no logic of its own. -/
theorem weatherData_wrapper_pass_through (w : WeatherData)
    (dh : List DailyHistory) (u : Unit) (cr : DataCriteria) (rng : DateRange)
    (lc : LocationCriteria) (loc : Location) :
    w.add_histories dh = w._rust_bindings.add_histories dh ∧
    w.get_history_client u = w._rust_bindings.get_history_client u ∧
    w.get_daily_history cr rng = w._rust_bindings.get_daily_history cr rng ∧
    w.get_history_dates cr = w._rust_bindings.get_history_dates cr ∧
    w.get_history_summary cr = w._rust_bindings.get_history_summary cr ∧
    w.get_locations cr = w._rust_bindings.get_locations cr ∧
    w.search_locations lc = w._rust_bindings.search_locations lc ∧
    w.add_location loc = w._rust_bindings.add_location loc := by
  refine ⟨rfl, rfl, rfl, rfl, rfl, rfl, rfl, ?_⟩
  rw [WeatherData.add_location]
  cases hx : w._rust_bindings.add_location loc with
  | ok v => cases v; rfl
  | error e => rfl

/-- **C9**: for every message string, `WeatherConfigException(message)`
stores the message in its notes, yet `reason()` returns `None` — the
joined notes string is built but never returned, so the message cannot be
retrieved through `reason()`. -/
theorem weatherConfigException_reason_returns_none (message : String) :
    (WeatherConfigException.init message).reason = none ∧
    (WeatherConfigException.init message).notes = [message] ∧
    ∀ s : String, (WeatherConfigException.init message).reason ≠ some s :=
  ⟨rfl, rfl, fun _ h => Option.noConfusion h⟩

/-- `value_or_none` never produces an empty string: the empty string is
falsy and becomes `None`. -/
theorem value_or_none_ne_empty (s : String) : value_or_none s ≠ some "" := by
  rw [value_or_none]
  split
  · exact fun h => Option.noConfusion h
  · rename_i hne
    intro h
    injection h with h2
    exact hne h2

/-- **C10**: a completed (applied) run of `GetSearchCriteria` stores the
stripped city/state/name texts, an all-whitespace field becoming `None`
and never the empty string. -/
theorem searchCriteria_apply_strips_and_nones (cityT stateT nameT limitT : String)
    (c c' : LocationCriteria)
    (happ : applyCriteria cityT stateT nameT limitT c = (c', false)) :
    c'.city = value_or_none (pyStrip cityT) ∧
    c'.state = value_or_none (pyStrip stateT) ∧
    c'.name = value_or_none (pyStrip nameT) ∧
    c'.city ≠ some "" ∧ c'.state ≠ some "" ∧ c'.name ≠ some "" := by
  rw [applyCriteria] at happ
  cases hp : pyInt limitT with
  | none => rw [hp] at happ; simp at happ
  | some n =>
    rw [hp] at happ
    simp only [Prod.mk.injEq] at happ
    obtain ⟨hc, -⟩ := happ
    rw [← hc]
    exact ⟨rfl, rfl, rfl, value_or_none_ne_empty _, value_or_none_ne_empty _,
      value_or_none_ne_empty _⟩

/-- Witness for C10 at a concrete input. -/
theorem searchCriteria_apply_strips_and_nones_witness :
    ({ city := some "Boise", state := none, name := some "x", limit := 25 }
        : LocationCriteria).city = value_or_none (pyStrip "  Boise ") ∧
    ({ city := some "Boise", state := none, name := some "x", limit := 25 }
        : LocationCriteria).state = value_or_none (pyStrip " ") ∧
    ({ city := some "Boise", state := none, name := some "x", limit := 25 }
        : LocationCriteria).name = value_or_none (pyStrip " x ") ∧
    ({ city := some "Boise", state := none, name := some "x", limit := 25 }
        : LocationCriteria).city ≠ some "" ∧
    ({ city := some "Boise", state := none, name := some "x", limit := 25 }
        : LocationCriteria).state ≠ some "" ∧
    ({ city := some "Boise", state := none, name := some "x", limit := 25 }
        : LocationCriteria).name ≠ some "" :=
  searchCriteria_apply_strips_and_nones "  Boise " " " " x " "25" {} _ (by decide)

/-- **C7**: `add_histories` is all-or-nothing — a batch with any record
for an unknown location is rejected whole with `UnknownLocation` and the
store is unchanged; a batch of known locations is written whole and the
full count is returned, so partial success is never reported. -/
theorem storeAddHistories_all_or_nothing (reg : List Location)
    (store batch : List DailyHistory) :
    ((∃ h ∈ batch, locationKnown reg h.«alias» = false) →
      storeAddHistories reg store batch = (store, .error .unknownLocation)) ∧
    ((∀ h ∈ batch, locationKnown reg h.«alias» = true) →
      storeAddHistories reg store batch =
        (batch.foldl upsertHistory store, .ok (batch.length : Int))) := by
  constructor
  · rintro ⟨h, hmem, hfalse⟩
    have hcond : ¬(batch.all (fun x => locationKnown reg x.«alias») = true) := by
      intro hall
      have := List.all_eq_true.mp hall h hmem
      rw [hfalse] at this
      exact Bool.false_ne_true this
    rw [storeAddHistories, if_neg hcond]
  · intro hall
    rw [storeAddHistories, if_pos (List.all_eq_true.mpr hall)]

/-- Concrete registry entry shared by the engine witnesses. -/
def wLoc : Location :=
  { name := "New York", «alias» := "nyc", latitude := "40.7",
    longitude := "-74.0", tz := "America/New_York" }

/-- Witness for C7 at concrete inputs: a batch containing a record for the
unknown alias `xxx` is rejected whole, a batch for the known alias `nyc`
is written whole. -/
theorem storeAddHistories_all_or_nothing_witness :
    storeAddHistories [wLoc] [] [⟨"nyc", 1, "t=32"⟩, ⟨"xxx", 2, "t=40"⟩] =
      ([], .error .unknownLocation) ∧
    storeAddHistories [wLoc] [] [⟨"nyc", 1, "t=32"⟩] =
      ([⟨"nyc", 1, "t=32"⟩], .ok 1) := by
  constructor
  · exact (storeAddHistories_all_or_nothing [wLoc] [] _).1
      ⟨⟨"xxx", 2, "t=40"⟩, by decide, by decide⟩
  · have := (storeAddHistories_all_or_nothing [wLoc] [] [⟨"nyc", 1, "t=32"⟩]).2
      (by decide)
    rw [this]
    decide

/-- **C8**: adding a valid location and then querying the registry with an
alias filter equal to its alias returns exactly that one record. -/
theorem registry_add_then_get_roundtrip (tzdb : String → Option String)
    (reg reg2 : List Location) (L : Location)
    (hadd : registryAddLocation tzdb reg L = .ok reg2) :
    registryGetLocations reg2 ⟨[L.«alias»]⟩ = [L] := by
  by_cases hdup : reg.any (fun r => ciEq r.«alias» L.«alias») = true
  · rw [registryAddLocation, if_pos hdup] at hadd
    exact absurd hadd (by simp)
  · rw [registryAddLocation, if_neg hdup] at hadd
    by_cases hval : validLocationFields tzdb L = true
    · rw [if_pos hval] at hadd
      injection hadd with h2
      subst h2
      rw [registryGetLocations, if_neg (by simp), List.filter_append]
      have hno : reg.filter
          (fun r => (({ filters := [L.«alias»] } : DataCriteria)).filters.any
            (fun fl => ciEq r.«alias» fl)) = [] := by
        rw [List.filter_eq_nil_iff]
        intro r hr
        simp only [List.any_cons, List.any_nil, Bool.or_false]
        intro hciq
        exact hdup (List.any_eq_true.mpr ⟨r, hr, hciq⟩)
      have hsing : ([L] : List Location).filter
          (fun r => (({ filters := [L.«alias»] } : DataCriteria)).filters.any
            (fun fl => ciEq r.«alias» fl)) = [L] := by
        simp [List.filter, ciEq_refl]
      rw [hno, hsing]
      rfl
    · rw [if_neg hval] at hadd
      exact absurd hadd (by simp)

/-- Witness for C8 at a concrete input. -/
theorem registry_add_then_get_roundtrip_witness :
    registryGetLocations [wLoc] ⟨[wLoc.«alias»]⟩ = [wLoc] :=
  registry_add_then_get_roundtrip (fun _ => some "America/New_York") [] [wLoc]
    wLoc (by decide)

/-- Inserting an all-digit string into an all-digit text keeps it all
digits. -/
theorem insertAt_all_digits (t : String) (pos : Nat) (s : String)
    (ht : t.data.all Char.isDigit = true) (hs : s.data.all Char.isDigit = true) :
    (insertAt t pos s).data.all Char.isDigit = true := by
  have ht2 := ht
  rw [← List.take_append_drop pos t.data, List.all_append, Bool.and_eq_true] at ht2
  rw [insertAt]
  show (t.data.take pos ++ s.data ++ t.data.drop pos).all Char.isDigit = true
  rw [List.all_append, List.all_append]
  simp [ht2.1, ht2.2, hs]

/-- Deleting a range from an all-digit text keeps it all digits. -/
theorem deleteRange_all_digits (t : String) (pos len : Nat)
    (ht : t.data.all Char.isDigit = true) :
    (deleteRange t pos len).data.all Char.isDigit = true := by
  have h1 := ht
  rw [← List.take_append_drop pos t.data, List.all_append, Bool.and_eq_true] at h1
  have h2 := ht
  rw [← List.take_append_drop (pos + len) t.data, List.all_append,
    Bool.and_eq_true] at h2
  rw [deleteRange]
  show (t.data.take pos ++ t.data.drop (pos + len)).all Char.isDigit = true
  rw [List.all_append]
  simp [h1.1, h2.2]

/-- Every keystroke edit accepted by the `number_only` key validator keeps
the limit entry text all digits. -/
theorem limitStep_all_digits (t : String) (e : LimitEdit)
    (ht : t.data.all Char.isDigit = true) :
    (limitStep t e).data.all Char.isDigit = true := by
  cases e with
  | insert pos s =>
    rw [limitStep]
    by_cases hs : number_only "1" s = true
    · rw [if_pos hs]
      exact insertAt_all_digits t pos s ht (by simpa [number_only] using hs)
    · rw [if_neg hs]
      exact ht
  | delete pos len => exact deleteRange_all_digits t pos len ht

/-- A successful `GetSearchCriteria.apply` stored the parsed limit. -/
theorem applyCriteria_ok_limit (cityT stateT nameT limitT : String)
    (c c' : LocationCriteria)
    (happ : applyCriteria cityT stateT nameT limitT c = (c', false)) :
    pyInt limitT = some c'.limit := by
  rw [applyCriteria] at happ
  cases hp : pyInt limitT with
  | none => rw [hp] at happ; simp at happ
  | some n =>
    rw [hp] at happ
    simp only [Prod.mk.injEq] at happ
    obtain ⟨hc, -⟩ := happ
    rw [← hc]

/-- **C5**: starting from an all-digit limit text, every sequence of
keystroke edits admitted by the `number_only` key validator leaves the
text all digits, and every completed (applied) run of `GetSearchCriteria`
therefore stores a non-negative integer limit.  (An emptied field makes
`int` raise, but then the run is not applied.) -/
theorem searchCriteria_limit_nonneg (t0 : String) (es : List LimitEdit)
    (cityT stateT nameT : String) (c c' : LocationCriteria)
    (ht0 : t0.data.all Char.isDigit = true) :
    (es.foldl limitStep t0).data.all Char.isDigit = true ∧
    (applyCriteria cityT stateT nameT (es.foldl limitStep t0) c = (c', false) →
      0 ≤ c'.limit) := by
  have hall : (es.foldl limitStep t0).data.all Char.isDigit = true :=
    foldl_inv limitStep (fun t => t.data.all Char.isDigit = true)
      (fun _ => True) (fun t e _ h => limitStep_all_digits t e h) es t0
      (fun _ _ => trivial) ht0
  refine ⟨hall, fun happ => ?_⟩
  exact pyInt_all_digits_nonneg _ hall _
    (applyCriteria_ok_limit _ _ _ _ _ _ happ)

/-- Witness for C5 at a concrete input: from `"25"`, insert `"9"`, delete
one character, apply. -/
theorem searchCriteria_limit_nonneg_witness :
    ([LimitEdit.insert 1 "9", LimitEdit.delete 0 1].foldl limitStep
        "25").data.all Char.isDigit = true ∧
    (applyCriteria "" "" ""
        ([LimitEdit.insert 1 "9", LimitEdit.delete 0 1].foldl limitStep "25")
        {} = ({ city := none, state := none, name := none, limit := 95 }, false) →
      0 ≤ ({ city := none, state := none, name := none, limit := 95 }
        : LocationCriteria).limit) :=
  searchCriteria_limit_nonneg "25" [LimitEdit.insert 1 "9", LimitEdit.delete 0 1]
    "" "" "" {} _ (by decide)

/-- If the latitude text parses outside [-90, 90], or the longitude text
parses outside [-180, 180], or the timezone text does not resolve, then
`validate` cannot return `True`. -/
theorem validateFn_not_vtrue_of_invalid (env : ValidateEnv) (f : Location)
    (hpre :
      (∃ q, pyFloat f.latitude = some q ∧
        (q.blt ⟨-90, 0⟩ = true ∨ PyDecimal.blt ⟨90, 0⟩ q = true)) ∨
      (∃ q, pyFloat f.longitude = some q ∧
        (q.blt ⟨-180, 0⟩ = true ∨ PyDecimal.blt ⟨180, 0⟩ q = true)) ∨
      env.tzdb f.tz = none) :
    ∀ z, validateFn env f ≠ .vtrue z := by
  intro z h
  rw [validateFn] at h
  by_cases h1 : f.name = ""
  · rw [if_pos h1] at h; exact ValidateOutcome.noConfusion h
  rw [if_neg h1] at h
  by_cases h2 : f.«alias» = ""
  · rw [if_pos h2] at h; exact ValidateOutcome.noConfusion h
  rw [if_neg h2] at h
  cases hl : env.lookup f.«alias» with
  | none => rw [hl, Option.elim_none] at h; exact ValidateOutcome.noConfusion h
  | some locs =>
    rw [hl, Option.elim_some] at h
    by_cases h3 : locs.isEmpty = true
    swap
    · rw [if_neg h3] at h; exact ValidateOutcome.noConfusion h
    rw [if_pos h3] at h
    by_cases h4 : f.latitude = ""
    · rw [if_pos h4] at h; exact ValidateOutcome.noConfusion h
    rw [if_neg h4] at h
    cases hlat : pyFloat f.latitude with
    | none => rw [hlat, Option.elim_none] at h; exact ValidateOutcome.noConfusion h
    | some lat =>
      rw [hlat, Option.elim_some] at h
      by_cases h5 : (lat.blt ⟨-90, 0⟩ || PyDecimal.blt ⟨90, 0⟩ lat) = true
      · rw [if_pos h5] at h; exact ValidateOutcome.noConfusion h
      rw [if_neg h5] at h
      by_cases h6 : f.longitude = ""
      · rw [if_pos h6] at h; exact ValidateOutcome.noConfusion h
      rw [if_neg h6] at h
      cases hlon : pyFloat f.longitude with
      | none => rw [hlon, Option.elim_none] at h; exact ValidateOutcome.noConfusion h
      | some lon =>
        rw [hlon, Option.elim_some] at h
        by_cases h7 : (lon.blt ⟨-180, 0⟩ || PyDecimal.blt ⟨180, 0⟩ lon) = true
        · rw [if_pos h7] at h; exact ValidateOutcome.noConfusion h
        rw [if_neg h7] at h
        by_cases h8 : f.tz = ""
        · rw [if_pos h8] at h; exact ValidateOutcome.noConfusion h
        rw [if_neg h8] at h
        cases htz : env.tzdb f.tz with
        | none => rw [htz, Option.elim_none] at h; exact ValidateOutcome.noConfusion h
        | some zone =>
          rcases hpre with ⟨q, hq, hr⟩ | ⟨q, hq, hr⟩ | hq
          · rw [hq] at hlat
            injection hlat with he
            subst he
            rcases hr with hr | hr <;> simp [hr] at h5
          · rw [hq] at hlon
            injection hlon with he
            subst he
            rcases hr with hr | hr <;> simp [hr] at h7
          · rw [hq] at htz
            exact Option.noConfusion htz

/-- **C1**: in a pending validation whose latitude text parses to a float
outside [-90, 90], or whose longitude text parses outside [-180, 180], or
whose timezone text does not resolve, `validate` does not return `True`,
and resolving the validation leaves the `Location` being edited, and the
cancelled flag, unchanged — the editor does not apply. -/
theorem locationEditor_invalid_rejected (env : ValidateEnv) (d : DState)
    (hph : d.phase = .validating)
    (hpre :
      (∃ q, pyFloat d.fields.latitude = some q ∧
        (q.blt ⟨-90, 0⟩ = true ∨ PyDecimal.blt ⟨90, 0⟩ q = true)) ∨
      (∃ q, pyFloat d.fields.longitude = some q ∧
        (q.blt ⟨-180, 0⟩ = true ∨ PyDecimal.blt ⟨180, 0⟩ q = true)) ∨
      env.tzdb d.fields.tz = none) :
    (∀ z, validateFn env d.fields ≠ .vtrue z) ∧
    (stepD env d .resolve).loc = d.loc ∧
    (stepD env d .resolve).isCancelled = d.isCancelled ∧
    (stepD env d .resolve).phase ≠ .applied := by
  obtain ⟨f, loc, isC, ph⟩ := d
  simp only at hph hpre ⊢
  subst hph
  have hnv := validateFn_not_vtrue_of_invalid env f hpre
  refine ⟨hnv, ?_⟩
  have hs : stepD env ⟨f, loc, isC, .validating⟩ .resolve =
      applyOutcome ⟨f, loc, isC, .validating⟩ (validateFn env f) := rfl
  rw [hs]
  cases hv : validateFn env f with
  | vtrue z => exact absurd hv (hnv z)
  | vfalse => exact ⟨rfl, rfl, fun hc => Phase.noConfusion hc⟩
  | vexn => exact ⟨rfl, rfl, fun hc => Phase.noConfusion hc⟩

/-- Concrete environment for the C1 witness: empty registry, every
timezone resolves. -/
def envW : ValidateEnv :=
  { lookup := fun _ => some [], tzdb := fun _ => some "GMT" }

/-- Concrete pending-validation state for the C1 witness: the latitude
text `"100"` parses to 100, outside [-90, 90]. -/
def dW : DState :=
  { fields := { name := "x", «alias» := "a", latitude := "100",
                longitude := "0", tz := "GMT" },
    loc := { name := "x", «alias» := "a", latitude := "100",
             longitude := "0", tz := "GMT" },
    isCancelled := true, phase := .validating }

/-- Witness for C1 at a concrete input. -/
theorem locationEditor_invalid_rejected_witness :
    (stepD envW dW .resolve).loc = dW.loc ∧
    (stepD envW dW .resolve).isCancelled = dW.isCancelled ∧
    (stepD envW dW .resolve).phase ≠ .applied := by
  have h := locationEditor_invalid_rejected envW dW rfl
    (Or.inl ⟨⟨100, 0⟩, by decide, Or.inr (by decide)⟩)
  exact h.2

/-- Invariant of an editor run: while the dialog has not applied, the
`Location` passed in is unchanged and `_is_cancelled` is `True`; once it
has applied, `_is_cancelled` is `False` and the `Location` holds the field
values of a state on which `validate` returned `True` (with the timezone
canonicalised). -/
def dialogInv (env : ValidateEnv) (l : Location) (d : DState) : Prop :=
  (d.phase ≠ .applied → d.loc = l ∧ d.isCancelled = true) ∧
  (d.phase = .applied → d.isCancelled = false ∧
    ∃ f zone, validateFn env f = .vtrue zone ∧ d.loc = { f with tz := zone })

theorem dialogInv_step (env : ValidateEnv) (l : Location) (d : DState)
    (e : DialogEvent) (hP : dialogInv env l d) :
    dialogInv env l (stepD env d e) := by
  obtain ⟨f, loc, isC, ph⟩ := d
  cases ph with
  | applied => exact hP
  | cancelled => exact hP
  | validating =>
    cases e with
    | resolve =>
      have hs : stepD env ⟨f, loc, isC, .validating⟩ .resolve =
          applyOutcome ⟨f, loc, isC, .validating⟩ (validateFn env f) := rfl
      rw [dialogInv, hs]
      cases hv : validateFn env f with
      | vtrue z =>
        exact ⟨fun hna => absurd rfl hna, fun _ => ⟨rfl, f, z, hv, rfl⟩⟩
      | vfalse =>
        exact ⟨fun _ => hP.1 (fun hc => Phase.noConfusion hc),
               fun hap => Phase.noConfusion hap⟩
      | vexn =>
        exact ⟨fun _ => hP.1 (fun hc => Phase.noConfusion hc),
               fun hap => Phase.noConfusion hap⟩
    | setName s => exact hP
    | setAlias s => exact hP
    | typeAlias s => exact hP
    | setLatitude s => exact hP
    | setLongitude s => exact hP
    | setTz s => exact hP
    | aliasKeyRelease => exact hP
    | pressOk =>
      exact ⟨fun _ => hP.1 (fun hc => Phase.noConfusion hc),
             fun hap => Phase.noConfusion hap⟩
    | pressCancel =>
      exact ⟨fun _ => hP.1 (fun hc => Phase.noConfusion hc),
             fun hap => Phase.noConfusion hap⟩
  | editing =>
    cases e with
    | resolve => exact hP
    | setName s =>
      exact ⟨fun _ => hP.1 (fun hc => Phase.noConfusion hc),
             fun hap => Phase.noConfusion hap⟩
    | setAlias s =>
      exact ⟨fun _ => hP.1 (fun hc => Phase.noConfusion hc),
             fun hap => Phase.noConfusion hap⟩
    | typeAlias s =>
      exact ⟨fun _ => hP.1 (fun hc => Phase.noConfusion hc),
             fun hap => Phase.noConfusion hap⟩
    | setLatitude s =>
      exact ⟨fun _ => hP.1 (fun hc => Phase.noConfusion hc),
             fun hap => Phase.noConfusion hap⟩
    | setLongitude s =>
      exact ⟨fun _ => hP.1 (fun hc => Phase.noConfusion hc),
             fun hap => Phase.noConfusion hap⟩
    | setTz s =>
      exact ⟨fun _ => hP.1 (fun hc => Phase.noConfusion hc),
             fun hap => Phase.noConfusion hap⟩
    | aliasKeyRelease =>
      exact ⟨fun _ => hP.1 (fun hc => Phase.noConfusion hc),
             fun hap => Phase.noConfusion hap⟩
    | pressOk =>
      exact ⟨fun _ => hP.1 (fun hc => Phase.noConfusion hc),
             fun hap => Phase.noConfusion hap⟩
    | pressCancel =>
      exact ⟨fun _ => hP.1 (fun hc => Phase.noConfusion hc),
             fun hap => Phase.noConfusion hap⟩

/-- **C3**: the editor follows Editing → Validating → {Applied, Cancelled}:
in every run, as long as the dialog has not applied — in particular on
cancellation and after failed validations — the `Location` passed in is
unchanged and `is_cancelled()` is `True`; and if it applied, the cancelled
flag was cleared and the applied `Location` is the field values of a state
on which `validate` returned `True`, so `apply` runs only after a
successful validation. -/
theorem locationEditor_dialog_three_state_flow (env : ValidateEnv)
    (l : Location) (es : List DialogEvent) :
    ((runDialog env (initDState l) es).phase ≠ .applied →
      (runDialog env (initDState l) es).loc = l ∧
      (runDialog env (initDState l) es).isCancelled = true) ∧
    ((runDialog env (initDState l) es).phase = .applied →
      (runDialog env (initDState l) es).isCancelled = false ∧
      ∃ f zone, validateFn env f = .vtrue zone ∧
        (runDialog env (initDState l) es).loc = { f with tz := zone }) := by
  have h := foldl_inv (stepD env) (dialogInv env l) (fun _ => True)
    (fun d e _ hp => dialogInv_step env l d e hp) es (initDState l)
    (fun _ _ => trivial)
    ⟨fun _ => ⟨rfl, rfl⟩, fun hap => Phase.noConfusion hap⟩
  exact h

/-- Witness for C3 at concrete inputs: a cancelled run leaves the location
unchanged with `is_cancelled()` true; an applied run clears the flag. -/
theorem locationEditor_dialog_three_state_flow_witness :
    (runDialog envW (initDState dW.fields) [.pressCancel]).loc = dW.fields ∧
    (runDialog envW (initDState dW.fields) [.pressCancel]).isCancelled = true ∧
    (runDialog envW (initDState { dW.fields with latitude := "40.7" })
      [.pressOk, .resolve]).isCancelled = false := by
  have h1 := (locationEditor_dialog_three_state_flow envW dW.fields
    [.pressCancel]).1 (by decide)
  have h2 := (locationEditor_dialog_three_state_flow envW
    { dW.fields with latitude := "40.7" } [.pressOk, .resolve]).2 (by decide)
  exact ⟨h1.1, h1.2, h2.1⟩

/-- Events that replace the alias text without the `<KeyRelease>` handler
running afterwards (raw sets) or at all (both alias-changing edits). -/
def isAliasEdit : DialogEvent → Bool
  | .setAlias _ => true
  | .typeAlias _ => true
  | _ => false

/-- Events that replace the alias text without the `<KeyRelease>`
lowercasing handler running afterwards. -/
def isRawAliasSet : DialogEvent → Bool
  | .setAlias _ => true
  | _ => false

/-- A registry holding a case-insensitive match for `a` yields a non-empty
`get_locations` result for the filter `[a]`. -/
theorem registryGetLocations_dup_nonempty (reg : List Location) (a : String)
    (hdup : ∃ r ∈ reg, ciEq r.«alias» a = true) :
    (registryGetLocations reg ⟨[a]⟩).isEmpty = false := by
  obtain ⟨r, hr, hciq⟩ := hdup
  rw [registryGetLocations, if_neg (by simp)]
  have hmem : r ∈ reg.filter
      (fun x => (({ filters := [a] } : DataCriteria)).filters.any
        (fun fl => ciEq x.«alias» fl)) := by
    rw [List.mem_filter]
    exact ⟨hr, by simp [hciq]⟩
  rcases hfl : reg.filter
      (fun x => (({ filters := [a] } : DataCriteria)).filters.any
        (fun fl => ciEq x.«alias» fl)) with _ | ⟨x, xs⟩
  · rw [hfl] at hmem
    exact absurd hmem (List.not_mem_nil r)
  · rw [hfl]
    rfl

/-- Against the real registry environment, `validate` cannot return `True`
when the alias text already matches a registered alias
case-insensitively. -/
theorem validateFn_dup_not_vtrue (tzdb : String → Option String)
    (reg : List Location) (f : Location)
    (hdup : ∃ r ∈ reg, ciEq r.«alias» f.«alias» = true) :
    ∀ z, validateFn (envOfRegistry tzdb reg) f ≠ .vtrue z := by
  intro z h
  rw [validateFn] at h
  by_cases h1 : f.name = ""
  · rw [if_pos h1] at h; exact ValidateOutcome.noConfusion h
  rw [if_neg h1] at h
  by_cases h2 : f.«alias» = ""
  · rw [if_pos h2] at h; exact ValidateOutcome.noConfusion h
  rw [if_neg h2] at h
  have hl : (envOfRegistry tzdb reg).lookup f.«alias» =
      some (registryGetLocations reg ⟨[f.«alias»]⟩) := rfl
  rw [hl, Option.elim_some] at h
  have hne := registryGetLocations_dup_nonempty reg f.«alias» hdup
  rw [if_neg (by simp [hne])] at h
  exact ValidateOutcome.noConfusion h

theorem c2step (tzdb : String → Option String) (reg : List Location)
    (d : DState) (e : DialogEvent) (hq : isAliasEdit e = false)
    (hP : d.phase ≠ .applied ∧ d.isCancelled = true ∧
      ∃ r ∈ reg, ciEq r.«alias» d.fields.«alias» = true) :
    (stepD (envOfRegistry tzdb reg) d e).phase ≠ .applied ∧
    (stepD (envOfRegistry tzdb reg) d e).isCancelled = true ∧
    ∃ r ∈ reg, ciEq r.«alias» (stepD (envOfRegistry tzdb reg) d e).fields.«alias» = true := by
  obtain ⟨f, loc, isC, ph⟩ := d
  cases ph with
  | applied => exact absurd rfl hP.1
  | cancelled => exact hP
  | validating =>
    cases e with
    | resolve =>
      have hs : stepD (envOfRegistry tzdb reg) ⟨f, loc, isC, .validating⟩ .resolve =
          applyOutcome ⟨f, loc, isC, .validating⟩
            (validateFn (envOfRegistry tzdb reg) f) := rfl
      rw [hs]
      cases hv : validateFn (envOfRegistry tzdb reg) f with
      | vtrue z => exact absurd hv (validateFn_dup_not_vtrue tzdb reg f hP.2.2 z)
      | vfalse => exact ⟨fun hc => Phase.noConfusion hc, hP.2.1, hP.2.2⟩
      | vexn => exact ⟨fun hc => Phase.noConfusion hc, hP.2.1, hP.2.2⟩
    | setName s => exact hP
    | setAlias s => exact hP
    | typeAlias s => exact hP
    | setLatitude s => exact hP
    | setLongitude s => exact hP
    | setTz s => exact hP
    | aliasKeyRelease => exact hP
    | pressOk => exact hP
    | pressCancel => exact hP
  | editing =>
    cases e with
    | resolve => exact hP
    | setName s => exact ⟨fun hc => Phase.noConfusion hc, hP.2.1, hP.2.2⟩
    | setAlias s => exact Bool.noConfusion hq
    | typeAlias s => exact Bool.noConfusion hq
    | setLatitude s => exact ⟨fun hc => Phase.noConfusion hc, hP.2.1, hP.2.2⟩
    | setLongitude s => exact ⟨fun hc => Phase.noConfusion hc, hP.2.1, hP.2.2⟩
    | setTz s => exact ⟨fun hc => Phase.noConfusion hc, hP.2.1, hP.2.2⟩
    | aliasKeyRelease =>
      refine ⟨fun hc => Phase.noConfusion hc, hP.2.1, ?_⟩
      obtain ⟨r, hr, hciq⟩ := hP.2.2
      refine ⟨r, hr, ?_⟩
      show ciEq r.«alias» (pyLower f.«alias») = true
      rw [ciEq_pyLower_right]
      exact hciq
    | pressOk => exact ⟨fun hc => Phase.noConfusion hc, hP.2.1, hP.2.2⟩
    | pressCancel => exact ⟨fun hc => Phase.noConfusion hc, hP.2.1, hP.2.2⟩

/-- **C2**: with an alias text that matches a registered alias
case-insensitively, `validate` never returns `True`; consequently an
`AddLocation` run whose alias is such a duplicate and is never edited ends
cancelled, the location is not added, and the registry is unchanged. -/
theorem locationEditor_duplicate_alias_rejected (tzdb : String → Option String)
    (reg : List Location) (l : Location) (es : List DialogEvent)
    (hdup : ∃ r ∈ reg, ciEq r.«alias» l.«alias» = true)
    (hes : ∀ e ∈ es, isAliasEdit e = false) :
    (∀ f z, (∃ r ∈ reg, ciEq r.«alias» f.«alias» = true) →
      validateFn (envOfRegistry tzdb reg) f ≠ .vtrue z) ∧
    addLocationRun tzdb reg l es = (reg, true) := by
  refine ⟨fun f z hd => validateFn_dup_not_vtrue tzdb reg f hd z, ?_⟩
  have h := foldl_inv (stepD (envOfRegistry tzdb reg))
    (fun d => d.phase ≠ .applied ∧ d.isCancelled = true ∧
      ∃ r ∈ reg, ciEq r.«alias» d.fields.«alias» = true)
    (fun e => isAliasEdit e = false)
    (fun d e hq hp => c2step tzdb reg d e hq hp) es (initDState l) hes
    ⟨fun hc => Phase.noConfusion hc, rfl, hdup⟩
  have h2 : (runDialog (envOfRegistry tzdb reg) (initDState l) es).isCancelled =
      true := h.2.1
  rw [addLocationRun, if_pos h2]

/-- Duplicate-alias location for the C2 witness: its alias `"NYC"` equals
the registered `"nyc"` up to case. -/
def lDup : Location :=
  { name := "Other", «alias» := "NYC", latitude := "40.7",
    longitude := "-74.0", tz := "UTC" }

/-- Witness for C2 at concrete inputs. -/
theorem locationEditor_duplicate_alias_rejected_witness :
    addLocationRun (fun _ => some "UTC") [wLoc] lDup [.pressOk, .resolve] =
      ([wLoc], true) :=
  (locationEditor_duplicate_alias_rejected (fun _ => some "UTC") [wLoc] lDup
    [.pressOk, .resolve] (by decide) (by decide)).2

theorem c6step (env : ValidateEnv) (d : DState) (e : DialogEvent)
    (hq : isRawAliasSet e = false)
    (hP : noUpper d.fields.«alias» = true ∧
      (d.phase = .applied → noUpper d.loc.«alias» = true)) :
    noUpper (stepD env d e).fields.«alias» = true ∧
    ((stepD env d e).phase = .applied →
      noUpper (stepD env d e).loc.«alias» = true) := by
  obtain ⟨f, loc, isC, ph⟩ := d
  cases ph with
  | applied => exact hP
  | cancelled => exact hP
  | validating =>
    cases e with
    | resolve =>
      have hs : stepD env ⟨f, loc, isC, .validating⟩ .resolve =
          applyOutcome ⟨f, loc, isC, .validating⟩ (validateFn env f) := rfl
      rw [hs]
      cases hv : validateFn env f with
      | vtrue z => exact ⟨hP.1, fun _ => hP.1⟩
      | vfalse => exact ⟨hP.1, fun hap => Phase.noConfusion hap⟩
      | vexn => exact ⟨hP.1, fun hap => Phase.noConfusion hap⟩
    | setName s => exact hP
    | setAlias s => exact hP
    | typeAlias s => exact hP
    | setLatitude s => exact hP
    | setLongitude s => exact hP
    | setTz s => exact hP
    | aliasKeyRelease => exact hP
    | pressOk => exact hP
    | pressCancel => exact hP
  | editing =>
    cases e with
    | resolve => exact hP
    | setName s => exact ⟨hP.1, fun hap => Phase.noConfusion hap⟩
    | setAlias s => exact Bool.noConfusion hq
    | typeAlias s => exact ⟨noUpper_pyLower s, fun hap => Phase.noConfusion hap⟩
    | setLatitude s => exact ⟨hP.1, fun hap => Phase.noConfusion hap⟩
    | setLongitude s => exact ⟨hP.1, fun hap => Phase.noConfusion hap⟩
    | setTz s => exact ⟨hP.1, fun hap => Phase.noConfusion hap⟩
    | aliasKeyRelease =>
      exact ⟨noUpper_pyLower f.«alias», fun hap => Phase.noConfusion hap⟩
    | pressOk => exact ⟨hP.1, fun hap => Phase.noConfusion hap⟩
    | pressCancel => exact ⟨hP.1, fun hap => Phase.noConfusion hap⟩

/-- Location with an uppercase initial alias for the C6 counterexample. -/
def locNYC : Location :=
  { name := "New York", «alias» := "NYC", latitude := "40.7",
    longitude := "-74.0", tz := "UTC" }

/-- Counterexample to C6 as stated: against an empty registry, an editor
run on a `Location` whose initial alias text is `"NYC"` in which the user
immediately presses OK applies — the `<KeyRelease>` handler never ran, and
the alias copied into the `Location` still contains uppercase
characters. -/
theorem locationEditor_uppercase_alias_counterexample :
    (runDialog (envOfRegistry (fun _ => some "UTC") []) (initDState locNYC)
        [.pressOk, .resolve]).phase = .applied ∧
    (runDialog (envOfRegistry (fun _ => some "UTC") []) (initDState locNYC)
        [.pressOk, .resolve]).isCancelled = false ∧
    noUpper (runDialog (envOfRegistry (fun _ => some "UTC") [])
        (initDState locNYC) [.pressOk, .resolve]).loc.«alias» = false := by
  decide

/-- **C6 (amended)**: the `<KeyRelease>` handler lowercases the alias text
after every alias keystroke, so an editor run that applies, whose initial
alias contains no uppercase characters, and whose alias text is only ever
changed by typing (never replaced without the handler running), copies an
alias with no uppercase characters into the `Location`.  (An uppercase
initial alias that is never retyped is copied unchanged — see the
counterexample.) -/
theorem locationEditor_typed_alias_lowercase (env : ValidateEnv)
    (l : Location) (es : List DialogEvent)
    (hl : noUpper l.«alias» = true)
    (hes : ∀ e ∈ es, isRawAliasSet e = false) :
    (runDialog env (initDState l) es).phase = .applied →
      noUpper (runDialog env (initDState l) es).loc.«alias» = true := by
  have h := foldl_inv (stepD env)
    (fun d => noUpper d.fields.«alias» = true ∧
      (d.phase = .applied → noUpper d.loc.«alias» = true))
    (fun e => isRawAliasSet e = false)
    (fun d e hq hp => c6step env d e hq hp) es (initDState l) hes
    ⟨hl, fun _ => hl⟩
  exact h.2

/-- Witness for the amended C6 at a concrete input: the alias is typed as
`"AbC"`, the handler lowercases it, and the applied location's alias has
no uppercase characters. -/
theorem locationEditor_typed_alias_lowercase_witness :
    noUpper (runDialog (envOfRegistry (fun _ => some "UTC") [])
      (initDState { locNYC with «alias» := "nyc" })
      [.typeAlias "AbC", .pressOk, .resolve]).loc.«alias» = true :=
  locationEditor_typed_alias_lowercase (envOfRegistry (fun _ => some "UTC") [])
    { locNYC with «alias» := "nyc" } [.typeAlias "AbC", .pressOk, .resolve]
    (by decide) (by decide) (by decide)
